import Mathlib

/-!
Shallow embedding of the ServiceHub notification BFF (`src/server_db.js`,
`src/models/Notification.js`).

The server keeps an in-memory SSE registry (`clients : Map email → response`)
and a MongoDB collection of notification records.  We model the registry as an
association list keyed by e-mail (channels are identified by `Nat`), and the
collection as a `List NotifRecord` in insertion order.  JavaScript falsiness of
optional strings (`!x` is true for `undefined` and `""`) and of numbers
(`0 || y` falls through to `y`) is modelled explicitly.  MongoDB behaviour that
the code relies on is modelled from the schema: `create` fails when the unique
`notificationId` already exists, or when `priority` is outside its enum;
`find().sort({createdAt: -1})` is a most-recent-first sort; `findOne` returns
the first match; `save` writes back the single found document.
-/

namespace ServiceHub

/-- JS truthiness for an optional string: `undefined` and `""` are falsy. -/
def strTruthy : Option String → Bool
  | none => false
  | some s => !(s == "")

/-- JS `p || d` for an optional string (falls back on `undefined` and `""`). -/
def strDefault (p : Option String) (d : String) : String :=
  match p with
  | none => d
  | some v => if v == "" then d else v

/-- JS `userId || email` (line 276): a present but zero `userId` is falsy and
falls back to the e-mail, like `undefined`. -/
def recipientKey (userId : Option Nat) (email : String) : String :=
  match userId with
  | none => email
  | some n => if n == 0 then email else toString n

/-- `targetUser` identity fields stored into `metadata` (line 296). -/
structure TUser where
  userId : Option Nat
  name : Option String
  email : String
  deriving Repr, DecidableEq

/-- The opaque `metadata` payload, with the fields the code reads back. -/
structure Meta where
  targetUser : Option TUser
  applicationId : Option String
  applicationName : Option String
  deriving Repr, DecidableEq

/-- A persisted notification document (`models/Notification.js`). -/
structure NotifRecord where
  notificationId : String
  sourceNotificationId : String
  userEmail : String
  userId : Option Nat
  source : String
  title : String
  content : String
  priority : String
  type : String
  severity : String
  timestamp : Nat
  read : Bool
  opened : Bool
  openedAt : Option Nat
  metadata : Meta
  trackingEnabled : Bool
  trackingCallbackUrl : Option String
  createdAt : Nat
  deriving Repr, DecidableEq

/-- One target of a bulk dispatch request (`{email, userId, name}`). -/
structure Target where
  email : Option String
  userId : Option Nat
  name : Option String
  deriving Repr, DecidableEq

/-- The bulk dispatch request body of `POST /api/notifications/receive`. -/
structure Batch where
  source : Option String
  notificationId : String
  title : Option String
  content : Option String
  priority : Option String
  type : Option String
  targetUsers : Option (List Target)
  metadata : Meta
  trackingEnabled : Bool
  trackingCallbackUrl : Option String
  deriving Repr, DecidableEq

/-- The record projection pushed over SSE (lines 171-186 and 321-336):
no `openedAt` field. -/
structure PushProj where
  id : String
  notificationId : String
  source : String
  title : String
  content : String
  priority : String
  type : String
  severity : String
  timestamp : Nat
  read : Bool
  opened : Bool
  metadata : Meta
  trackingEnabled : Bool
  trackingCallbackUrl : Option String
  deriving Repr, DecidableEq

/-- The record projection returned by mark-opened and the list endpoint
(lines 472-488 and 510-526): includes `openedAt`. -/
structure FullProj where
  id : String
  notificationId : String
  source : String
  title : String
  content : String
  priority : String
  type : String
  severity : String
  timestamp : Nat
  read : Bool
  opened : Bool
  openedAt : Option Nat
  metadata : Meta
  trackingEnabled : Bool
  trackingCallbackUrl : Option String
  deriving Repr, DecidableEq

def projPush (r : NotifRecord) : PushProj :=
  ⟨r.notificationId, r.sourceNotificationId, r.source, r.title, r.content,
   r.priority, r.type, r.severity, r.timestamp, r.read, r.opened,
   r.metadata, r.trackingEnabled, r.trackingCallbackUrl⟩

def projFull (r : NotifRecord) : FullProj :=
  ⟨r.notificationId, r.sourceNotificationId, r.source, r.title, r.content,
   r.priority, r.type, r.severity, r.timestamp, r.read, r.opened, r.openedAt,
   r.metadata, r.trackingEnabled, r.trackingCallbackUrl⟩

/-! ### ConnectionRegistry: the in-memory `clients` map (email → channel) -/

abbrev Clients := List (String × Nat)

/-- `clients.get(email)` — first (only) binding for the key. -/
def lookupClient (cs : Clients) (email : String) : Option Nat :=
  (cs.find? (fun p => p.1 == email)).map (fun p => p.2)

/-- `clients.set(email, res)` (line 156): replace in place, else append. -/
def setClient (email : String) (ch : Nat) : Clients → Clients
  | [] => [(email, ch)]
  | p :: ps => if p.1 == email then (email, ch) :: ps else p :: setClient email ch ps

/-- The SSE close handler (line 199): `clients.delete(email)` — removes the
binding for the e-mail unconditionally, with no check that the closing
channel is the one currently stored. -/
def closeClient (email : String) (cs : Clients) : Clients :=
  cs.filter (fun p => !(p.1 == email))

/-! ### NotificationStore: the MongoDB collection -/

abbrev Store := List NotifRecord

/-- Most-recent-first order used by `.sort({ createdAt: -1 })`. -/
def recNewer (a b : NotifRecord) : Prop := b.createdAt ≤ a.createdAt

instance : DecidableRel recNewer := fun a b => Nat.decLe b.createdAt a.createdAt

instance : IsTotal NotifRecord recNewer :=
  ⟨fun a b => (Nat.le_total b.createdAt a.createdAt).imp id id⟩

instance : IsTrans NotifRecord recNewer :=
  ⟨fun _ _ _ h1 h2 => Nat.le_trans h2 h1⟩

/-- `Notification.find({userEmail, opened: false}).sort({createdAt: -1})`
(lines 161-164): the pending records replayed on SSE connect. -/
def pendingFor (email : String) (s : Store) : List NotifRecord :=
  List.insertionSort recNewer
    (s.filter (fun r => r.userEmail == email && r.opened == false))

/-- `Notification.find({userEmail}).sort({createdAt: -1})` (lines 506-507). -/
def allFor (email : String) (s : Store) : List NotifRecord :=
  List.insertionSort recNewer (s.filter (fun r => r.userEmail == email))

/-- Events written on one SSE connection handshake. -/
inductive SseEvent where
  | connected
  | notif (data : PushProj)
  deriving Repr, DecidableEq

/-- `GET /api/events` after authentication: register the channel, then replay
every pending unopened record most-recent-first (lines 148-195). -/
def sseConnect (email : String) (ch : Nat) (cs : Clients) (s : Store) :
    Clients × List SseEvent :=
  (setClient email ch cs,
   SseEvent.connected :: (pendingFor email s).map (fun r => SseEvent.notif (projPush r)))

/-! ### DispatchEngine: `POST /api/notifications/receive` -/

/-- The per-user document built at lines 275-300 of `server_db.js`. -/
def mkRecord (b : Batch) (t : Target) (email : String) (now : Nat) : NotifRecord :=
  { notificationId := b.notificationId ++ "-" ++ recipientKey t.userId email
    sourceNotificationId := b.notificationId
    userEmail := email
    userId := t.userId
    source := strDefault b.source "PM_INTERFACE"
    title := b.title.getD ""
    content := b.content.getD ""
    priority := strDefault b.priority "medium"
    type := strDefault b.type "release_notes"
    severity :=
      if b.priority == some "high" then "error"
      else if b.priority == some "medium" then "warning"
      else "info"
    timestamp := now
    read := false
    opened := false
    openedAt := none
    metadata := { b.metadata with targetUser := some ⟨t.userId, t.name, email⟩ }
    trackingEnabled := b.trackingEnabled
    trackingCallbackUrl := b.trackingCallbackUrl
    createdAt := now }

/-- `Notification.create` fails (throws) when the unique `notificationId`
index is violated or the `priority` enum of the schema is. -/
def createFails (s : Store) (r : NotifRecord) : Bool :=
  s.any (fun q => q.notificationId == r.notificationId) ||
    !(r.priority == "high" || r.priority == "medium" || r.priority == "low")

structure SuccessEntry where
  email : String
  userId : Option Nat
  name : Option String
  notificationId : String
  deriving Repr, DecidableEq

structure FailedEntry where
  email : Option String
  userId : Option Nat
  name : Option String
  reason : String
  deriving Repr, DecidableEq

/-- Accumulator of the dispatch loop: the evolving store, the SSE writes
performed, and the `results.success` / `results.failed` lists. -/
structure DState where
  store : Store
  pushes : List (Nat × PushProj)
  success : List SuccessEntry
  failed : List FailedEntry
  deriving Repr, DecidableEq

/-- One iteration of the `for (const targetUser of targetUsers)` loop
(lines 262-363). -/
def processTarget (b : Batch) (cs : Clients) (now : Nat) (st : DState)
    (t : Target) : DState :=
  if !(strTruthy t.email) then
    { st with failed := st.failed ++ [⟨t.email, t.userId, t.name, "Missing email"⟩] }
  else
    let email := t.email.getD ""
    let r := mkRecord b t email now
    if createFails st.store r then
      { st with failed := st.failed ++
          [⟨t.email, t.userId, t.name, "Failed to store/send notification"⟩] }
    else
      let st1 : DState := { st with store := st.store ++ [r] }
      match lookupClient cs email with
      | none =>
          { st1 with failed := st1.failed ++
              [⟨t.email, t.userId, t.name,
                "User not connected (notification stored for later)"⟩] }
      | some ch =>
          { st1 with
            pushes := st1.pushes ++ [(ch, projPush r)]
            success := st1.success ++ [⟨email, t.userId, t.name, r.notificationId⟩] }

def runTargets (b : Batch) (cs : Clients) (now : Nat) (st : DState)
    (ts : List Target) : DState :=
  ts.foldl (processTarget b cs now) st

structure DispatchResults where
  success : List SuccessEntry
  failed : List FailedEntry
  total : Nat
  deriving Repr, DecidableEq

inductive DispatchResp where
  | invalid (error : String)
  | ok (results : DispatchResults)
  deriving Repr, DecidableEq

structure DispatchOut where
  resp : DispatchResp
  store : Store
  pushes : List (Nat × PushProj)
  deriving Repr, DecidableEq

/-- `POST /api/notifications/receive` (lines 213-385): validate, then process
each target, accumulating per-target outcomes. -/
def dispatch (b : Batch) (cs : Clients) (now : Nat) (s : Store) : DispatchOut :=
  match b.targetUsers with
  | none => ⟨.invalid "targetUsers array is required and cannot be empty", s, []⟩
  | some ts =>
    if ts.isEmpty then
      ⟨.invalid "targetUsers array is required and cannot be empty", s, []⟩
    else if !(strTruthy b.title) || !(strTruthy b.content) then
      ⟨.invalid "title and content are required", s, []⟩
    else
      let st := runTargets b cs now ⟨s, [], [], []⟩ ts
      ⟨.ok ⟨st.success, st.failed, ts.length⟩, st.store, st.pushes⟩

/-! ### DeliveryTracker: `POST /api/notifications/mark-opened` -/

/-- The `findOne({notificationId, userEmail})` match predicate (lines 402-405). -/
def recMatch (nid email : String) (r : NotifRecord) : Bool :=
  r.notificationId == nid && r.userEmail == email

/-- `notification.save()`: write the mutated document back in place.  `findOne`
returned the first match, so exactly that occurrence is replaced. -/
def updateFirst (p : NotifRecord → Bool) (f : NotifRecord → NotifRecord) :
    Store → Store
  | [] => []
  | r :: rs => if p r then f r :: rs else r :: updateFirst p f rs

/-- The open transition (lines 419-421): `read = true`, `opened = true`,
`openedAt = new Date()`. -/
def markRec (now : Nat) (r : NotifRecord) : NotifRecord :=
  { r with read := true, opened := true, openedAt := some now }

/-- One outbound tracking callback attempt (lines 429-459), with its payload
fields and whether the HTTP call succeeded (timeout/error is swallowed). -/
structure CallbackAttempt where
  url : String
  sourceNotificationId : String
  userId : String
  userEmail : String
  userName : String
  openedAt : Option Nat
  succeeded : Bool
  deriving Repr, DecidableEq

/-- `metadata?.targetUser?.userId || userEmail` (line 433), with JS falsiness
of a zero id. -/
def payloadUserId (m : Meta) (userEmail : String) : String :=
  match m.targetUser with
  | none => userEmail
  | some tu =>
    match tu.userId with
    | none => userEmail
    | some n => if n == 0 then userEmail else toString n

/-- `metadata?.targetUser?.name || userEmail` (line 435). -/
def payloadUserName (m : Meta) (userEmail : String) : String :=
  match m.targetUser with
  | none => userEmail
  | some tu => strDefault tu.name userEmail

inductive MarkResp where
  | unauth
  | badRequest
  | notFound
  | already
  | ok (notification : FullProj)
  deriving Repr, DecidableEq

structure MarkOut where
  store : Store
  resp : MarkResp
  callbacks : List CallbackAttempt
  deriving Repr, DecidableEq

/-- `POST /api/notifications/mark-opened` (lines 388-494).  `cbOk` is the
outcome of the outbound HTTP call when one is attempted; the `catch` at
line 464 swallows a failure, so execution continues identically either way. -/
def markOpened (now : Nat) (cbOk : Bool) (userEmail notificationId : Option String)
    (s : Store) : MarkOut :=
  if !(strTruthy userEmail) then ⟨s, .unauth, []⟩
  else if !(strTruthy notificationId) then ⟨s, .badRequest, []⟩
  else
    let em := userEmail.getD ""
    let nid := notificationId.getD ""
    match s.find? (recMatch nid em) with
    | none => ⟨s, .notFound, []⟩
    | some r =>
      if r.opened then ⟨s, .already, []⟩
      else
        let r' := markRec now r
        let s' := updateFirst (recMatch nid em) (markRec now) s
        let cbs :=
          if r'.trackingEnabled && strTruthy r'.trackingCallbackUrl then
            [⟨r'.trackingCallbackUrl.getD "", r'.sourceNotificationId,
              payloadUserId r'.metadata em, em, payloadUserName r'.metadata em,
              r'.openedAt, cbOk⟩]
          else []
        ⟨s', .ok (projFull r'), cbs⟩

/-! ### `GET /api/notifications` (lines 497-537) -/

structure ListResp where
  notifications : List FullProj
  count : Nat
  unreadCount : Nat
  deriving Repr, DecidableEq

def listNotifications (email : String) (s : Store) : ListResp :=
  let ns := (allFor email s).map projFull
  ⟨ns, ns.length, (ns.filter (fun n => !n.read)).length⟩

/-- The severity mapping applied to the raw request `priority` (the ternary at
lines 285-290 reads the request field, not the defaulted one). -/
def severitySpec (p : Option String) : String :=
  if p = some "high" then "error"
  else if p = some "medium" then "warning"
  else "info"

/-! ### Concrete instances used by witnesses and counterexamples -/

/-- A batch with no `priority` field and one reachable target. -/
def batchNoPriority : Batch :=
  ⟨none, "n1", some "T", some "C", none, none,
   some [⟨some "a@x", none, none⟩], ⟨none, none, none⟩, false, none⟩

/-- Two targets sharing `sourceNotificationId` and identity `a@x` but carrying
distinct `userId`s. -/
def batchSameIdentityTwoUserIds : Batch :=
  ⟨none, "n1", some "T", some "C", none, none,
   some [⟨some "a@x", some 1, none⟩, ⟨some "a@x", some 2, none⟩],
   ⟨none, none, none⟩, false, none⟩

/-- One target whose `userId` is present but zero. -/
def batchZeroUserId : Batch :=
  ⟨none, "n1", some "T", some "C", none, none,
   some [⟨some "a@x", some 0, none⟩], ⟨none, none, none⟩, false, none⟩

/-- The same `(sourceNotificationId, email)` once with `userId` 7 and once
without. -/
def batchMixedUserId : Batch :=
  ⟨none, "n1", some "T", some "C", none, none,
   some [⟨some "a@x", some 7, none⟩, ⟨some "a@x", none, none⟩],
   ⟨none, none, none⟩, false, none⟩

/-- One valid target and one target with a missing e-mail. -/
def batchTwoTargets : Batch :=
  ⟨none, "n1", some "T", some "C", none, none,
   some [⟨some "a@x", none, none⟩, ⟨none, none, none⟩],
   ⟨none, none, none⟩, false, none⟩

/-- A batch with an empty target list. -/
def batchEmptyTargets : Batch :=
  ⟨none, "n1", some "T", some "C", none, none, some [], ⟨none, none, none⟩,
   false, none⟩

/-- An unopened record for `a@x` with tracking enabled. -/
def recW1 : NotifRecord :=
  ⟨"n1-a@x", "n1", "a@x", none, "PM_INTERFACE", "T", "C", "medium", "release_notes",
   "warning", 3, false, false, none, ⟨some ⟨none, none, "a@x"⟩, none, none⟩,
   true, some "http://cb", 3⟩

/-- An older unopened record for `a@x`. -/
def recW2 : NotifRecord :=
  ⟨"n0-a@x", "n0", "a@x", none, "PM_INTERFACE", "T0", "C0", "medium",
   "release_notes", "warning", 1, false, false, none,
   ⟨some ⟨none, none, "a@x"⟩, none, none⟩, false, none, 1⟩

/-- An already-opened record for `a@x`. -/
def recW3 : NotifRecord :=
  ⟨"n2-a@x", "n2", "a@x", none, "PM_INTERFACE", "T2", "C2", "medium",
   "release_notes", "warning", 2, true, true, some 2,
   ⟨some ⟨none, none, "a@x"⟩, none, none⟩, false, none, 2⟩

/-- A record belonging to another identity. -/
def recW4 : NotifRecord :=
  ⟨"n1-b@x", "n1", "b@x", none, "PM_INTERFACE", "T", "C", "medium",
   "release_notes", "warning", 3, false, false, none,
   ⟨some ⟨none, none, "b@x"⟩, none, none⟩, false, none, 3⟩

/-- A small store mixing unopened, opened and foreign records. -/
def storeW : Store := [recW2, recW3, recW1, recW4]

/-! ### Helper lemmas -/

lemma find?_filter_self (e : String) (cs : Clients) :
    (List.filter (fun p => !(p.1 == e)) cs).find? (fun p => p.1 == e) = none := by
  rw [List.find?_eq_none]
  intro x hx
  have hq := List.of_mem_filter hx
  simpa using hq

lemma lookupClient_closeClient (cs : Clients) (e : String) :
    lookupClient (closeClient e cs) e = none := by
  simp [lookupClient, closeClient, find?_filter_self]

lemma mem_pendingFor (e : String) (s : Store) (r : NotifRecord) :
    r ∈ pendingFor e s ↔ (r ∈ s ∧ r.userEmail = e ∧ r.opened = false) := by
  unfold pendingFor
  rw [(List.perm_insertionSort recNewer _).mem_iff]
  simp [List.mem_filter, and_assoc]

lemma runTargets_cons (b : Batch) (cs : Clients) (now : Nat) (st : DState)
    (t : Target) (ts : List Target) :
    runTargets b cs now st (t :: ts)
      = runTargets b cs now (processTarget b cs now st t) ts := rfl

lemma processTarget_counts (b : Batch) (cs : Clients) (now : Nat) (st : DState)
    (t : Target) :
    (processTarget b cs now st t).success.length +
        (processTarget b cs now st t).failed.length
      = st.success.length + st.failed.length + 1 := by
  unfold processTarget
  dsimp only
  repeat' split
  all_goals simp
  all_goals omega

lemma runTargets_counts (b : Batch) (cs : Clients) (now : Nat) (ts : List Target) :
    ∀ st : DState,
      (runTargets b cs now st ts).success.length +
          (runTargets b cs now st ts).failed.length
        = st.success.length + st.failed.length + ts.length := by
  induction ts with
  | nil => intro st; simp [runTargets]
  | cons t ts ih =>
    intro st
    have h1 := ih (processTarget b cs now st t)
    have h2 := processTarget_counts b cs now st t
    rw [runTargets_cons, h1, h2, List.length_cons]
    omega

lemma processTarget_store (b : Batch) (cs : Clients) (now : Nat) (st : DState)
    (t : Target) :
    (processTarget b cs now st t).store = st.store ∨
      (strTruthy t.email = true ∧
        createFails st.store (mkRecord b t (t.email.getD "") now) = false ∧
        (processTarget b cs now st t).store
          = st.store ++ [mkRecord b t (t.email.getD "") now]) := by
  unfold processTarget
  dsimp only
  split
  · left; rfl
  · next h =>
    split
    · left; rfl
    · next hcf =>
      right
      refine ⟨by simpa using h, by simpa using hcf, ?_⟩
      split <;> rfl

lemma runTargets_store (b : Batch) (cs : Clients) (now : Nat) (ts : List Target) :
    ∀ st : DState, ∃ new,
      (runTargets b cs now st ts).store = st.store ++ new ∧
        ∀ r ∈ new, ∃ t ∈ ts, strTruthy t.email = true ∧
          r = mkRecord b t (t.email.getD "") now := by
  induction ts with
  | nil => intro st; exact ⟨[], by simp [runTargets]⟩
  | cons t ts ih =>
    intro st
    obtain ⟨new, hnew, hall⟩ := ih (processTarget b cs now st t)
    rw [runTargets_cons]
    rcases processTarget_store b cs now st t with h | ⟨he, _, h⟩
    · exact ⟨new, by rw [hnew, h], fun r hr =>
        (hall r hr).imp fun t' ⟨ht', h'⟩ => ⟨List.mem_cons_of_mem _ ht', h'⟩⟩
    · refine ⟨mkRecord b t (t.email.getD "") now :: new, ?_, ?_⟩
      · rw [hnew, h, List.append_cons, List.append_assoc]
        simp
      · intro r hr
        rcases List.mem_cons.1 hr with rfl | hr
        · exact ⟨t, List.mem_cons_self _ _, he, rfl⟩
        · exact (hall r hr).imp fun t' ⟨ht', h'⟩ => ⟨List.mem_cons_of_mem _ ht', h'⟩

lemma createFails_false_not_mem {s : Store} {r : NotifRecord}
    (h : createFails s r = false) :
    r.notificationId ∉ s.map (fun q => q.notificationId) := by
  intro hmem
  obtain ⟨q, hq, hqe⟩ := List.mem_map.1 hmem
  unfold createFails at h
  rw [Bool.or_eq_false_iff] at h
  have := List.any_eq_false.1 h.1 q hq
  simp [hqe] at this

lemma processTarget_nodup (b : Batch) (cs : Clients) (now : Nat) (st : DState)
    (t : Target)
    (h : (st.store.map fun r => r.notificationId).Nodup) :
    ((processTarget b cs now st t).store.map fun r => r.notificationId).Nodup := by
  rcases processTarget_store b cs now st t with hs | ⟨_, hcf, hs⟩
  · rwa [hs]
  · rw [hs, List.map_append, List.map_singleton]
    simp only [List.nodup_append, List.nodup_singleton, true_and]
    exact ⟨h, by simpa [List.disjoint_singleton] using createFails_false_not_mem hcf⟩

lemma runTargets_nodup (b : Batch) (cs : Clients) (now : Nat) (ts : List Target) :
    ∀ st : DState, (st.store.map fun r => r.notificationId).Nodup →
      ((runTargets b cs now st ts).store.map fun r => r.notificationId).Nodup := by
  induction ts with
  | nil => intro st h; simpa [runTargets] using h
  | cons t ts ih =>
    intro st h
    simp only [runTargets, List.foldl_cons]
    exact ih _ (processTarget_nodup b cs now st t h)

lemma strTruthy_some_of_ne {e : String} (he : e ≠ "") : strTruthy (some e) = true := by
  simp [strTruthy, he]

lemma recMatch_markRec (nid em : String) (now : Nat) (r : NotifRecord) :
    recMatch nid em (markRec now r) = recMatch nid em r := rfl

lemma find?_updateFirst (p : NotifRecord → Bool) (f : NotifRecord → NotifRecord)
    (hpf : ∀ r, p (f r) = p r) :
    ∀ l : Store, (updateFirst p f l).find? p = (l.find? p).map f := by
  intro l
  induction l with
  | nil => rfl
  | cons r rs ih =>
    by_cases h : p r = true
    · simp only [updateFirst, if_pos h]
      rw [List.find?_cons_of_pos _ (by rw [hpf]; exact h),
        List.find?_cons_of_pos _ h, Option.map_some']
    · simp only [updateFirst, if_neg h]
      rw [List.find?_cons_of_neg _ h, List.find?_cons_of_neg _ h, ih]

lemma mem_updateFirst {p : NotifRecord → Bool} {f : NotifRecord → NotifRecord}
    {l : Store} {r : NotifRecord} (h : r ∈ updateFirst p f l) :
    r ∈ l ∨ ∃ q ∈ l, r = f q := by
  induction l with
  | nil => exact absurd h (by simp [updateFirst])
  | cons a as ih =>
    simp only [updateFirst] at h
    by_cases ha : p a = true
    · rw [if_pos ha] at h
      rcases List.mem_cons.1 h with rfl | h
      · exact Or.inr ⟨a, List.mem_cons_self _ _, rfl⟩
      · exact Or.inl (List.mem_cons_of_mem _ h)
    · rw [if_neg ha] at h
      rcases List.mem_cons.1 h with rfl | h
      · exact Or.inl (List.mem_cons_self _ _)
      · rcases ih h with h' | ⟨q, hq, h'⟩
        · exact Or.inl (List.mem_cons_of_mem _ h')
        · exact Or.inr ⟨q, List.mem_cons_of_mem _ hq, h'⟩

/-! ### Claim theorems -/

/-- C3: `markOpened` is idempotent: for the same `(identity, recordId)`, if the
record is already opened the call returns success immediately, mutating nothing
and attempting no outbound callback; a second call after a first one never
mutates the store and never attempts a callback, so two calls leave the same
final record state; and `openedAt` is stamped by the first transition and is
still the first call's timestamp after the second call. -/
theorem mark_opened_idempotent (s : Store) (e i : String) (t1 t2 : Nat)
    (cb1 cb2 : Bool) (he : e ≠ "") (hi : i ≠ "") :
    ((markOpened t2 cb2 (some e) (some i)
        (markOpened t1 cb1 (some e) (some i) s).store).store
      = (markOpened t1 cb1 (some e) (some i) s).store) ∧
    ((markOpened t2 cb2 (some e) (some i)
        (markOpened t1 cb1 (some e) (some i) s).store).callbacks = []) ∧
    (∀ r, s.find? (recMatch i e) = some r → r.opened = true →
      (markOpened t1 cb1 (some e) (some i) s).store = s ∧
      (markOpened t1 cb1 (some e) (some i) s).callbacks = [] ∧
      (markOpened t1 cb1 (some e) (some i) s).resp = .already) ∧
    (∀ r, s.find? (recMatch i e) = some r → r.opened = false →
      ((markOpened t1 cb1 (some e) (some i) s).store.find? (recMatch i e)
        = some (markRec t1 r)) ∧
      ((markOpened t2 cb2 (some e) (some i)
          (markOpened t1 cb1 (some e) (some i) s).store).store.find? (recMatch i e)
        = some (markRec t1 r)) ∧
      (markRec t1 r).openedAt = some t1) := by
  have hse := strTruthy_some_of_ne he
  have hsi := strTruthy_some_of_ne hi
  have hpf : ∀ q, recMatch i e (markRec t1 q) = recMatch i e q := fun _ => rfl
  cases hf : s.find? (recMatch i e) with
  | none =>
    refine ⟨?_, ?_, ?_, ?_⟩
    · simp [markOpened, hse, hsi, hf]
    · simp [markOpened, hse, hsi, hf]
    · intro r hr; simp [hf] at hr
    · intro r hr; simp [hf] at hr
  | some r =>
    by_cases hop : r.opened
    · refine ⟨?_, ?_, ?_, ?_⟩
      · simp [markOpened, hse, hsi, hf, hop]
      · simp [markOpened, hse, hsi, hf, hop]
      · intro r' hr' _
        injection hr' with hr'
        subst hr'
        refine ⟨?_, ?_, ?_⟩ <;> simp [markOpened, hse, hsi, hf, hop]
      · intro r' hr' hop'
        injection hr' with hr'
        subst hr'
        rw [hop] at hop'
        exact absurd hop' (by simp)
    · have hm1 : (markOpened t1 cb1 (some e) (some i) s).store
          = updateFirst (recMatch i e) (markRec t1) s := by
        simp [markOpened, hse, hsi, hf, hop]
      have hfu : (updateFirst (recMatch i e) (markRec t1) s).find? (recMatch i e)
          = some (markRec t1 r) := by
        rw [find?_updateFirst _ _ hpf, hf, Option.map_some']
      have hopu : (markRec t1 r).opened = true := rfl
      refine ⟨?_, ?_, ?_, ?_⟩
      · rw [hm1]
        simp [markOpened, hse, hsi, hfu, hopu]
      · rw [hm1]
        simp [markOpened, hse, hsi, hfu, hopu]
      · intro r' hr' hop'
        injection hr' with hr'
        subst hr'
        exact absurd hop' (by simp [hop])
      · intro r' hr' _
        injection hr' with hr'
        subst hr'
        refine ⟨by rw [hm1, hfu], ?_, rfl⟩
        have : (markOpened t2 cb2 (some e) (some i)
            (markOpened t1 cb1 (some e) (some i) s).store).store
            = (markOpened t1 cb1 (some e) (some i) s).store := by
          rw [hm1]
          simp [markOpened, hse, hsi, hfu, hopu]
        rw [this, hm1, hfu]

lemma markOpened_cb_eq (t : Nat) (cb1 cb2 : Bool) (eo io : Option String)
    (s : Store) :
    (markOpened t cb1 eo io s).store = (markOpened t cb2 eo io s).store ∧
      (markOpened t cb1 eo io s).resp = (markOpened t cb2 eo io s).resp := by
  unfold markOpened
  dsimp only
  cases hte : strTruthy eo
  · simp
  · cases hti : strTruthy io
    · simp
    · simp only [Bool.not_true, Bool.false_eq_true, if_false]
      cases hf : s.find? (recMatch (io.getD "") (eo.getD "")) with
      | none => simp
      | some r =>
        by_cases hop : r.opened = true
        · simp [hop]
        · simp [hop]

/-- C8: the outbound tracking callback is fire-and-observe: on the first open
transition of a record with tracking enabled and a callback URL, exactly one
callback attempt is made, and whether that HTTP call succeeds or fails has no
effect on the store or on the response, which is always the transitioned record
projection (`read = true`, `opened = true`, `openedAt` stamped). -/
theorem mark_opened_callback_swallowed (s : Store) (eo io : Option String)
    (t : Nat) (cb1 cb2 : Bool) :
    ((markOpened t cb1 eo io s).store = (markOpened t cb2 eo io s).store) ∧
    ((markOpened t cb1 eo io s).resp = (markOpened t cb2 eo io s).resp) ∧
    (∀ (em nid : String) (r : NotifRecord) (cb : Bool),
      eo = some em → io = some nid → em ≠ "" → nid ≠ "" →
      s.find? (recMatch nid em) = some r → r.opened = false →
      r.trackingEnabled = true → strTruthy r.trackingCallbackUrl = true →
      (markOpened t cb eo io s).callbacks.length = 1 ∧
      (markOpened t cb eo io s).resp = .ok (projFull (markRec t r)) ∧
      (markOpened t cb eo io s).store = updateFirst (recMatch nid em) (markRec t) s ∧
      (projFull (markRec t r)).read = true ∧
      (projFull (markRec t r)).opened = true ∧
      (projFull (markRec t r)).openedAt = some t) := by
  refine ⟨(markOpened_cb_eq t cb1 cb2 eo io s).1,
    (markOpened_cb_eq t cb1 cb2 eo io s).2, ?_⟩
  rintro em nid r cb rfl rfl hem hnid hf hop htr hurl
  have hse := strTruthy_some_of_ne hem
  have hsi := strTruthy_some_of_ne hnid
  refine ⟨?_, ?_, ?_, rfl, rfl, rfl⟩ <;>
    simp [markOpened, markRec, hse, hsi, hf, hop, htr, hurl]

/-- C5: the replay performed right after the SSE handshake consists of exactly
the caller's persisted records with `opened = false` — never an opened record,
never another identity's record — ordered most-recent-first by creation time,
and the handshake writes the connected event followed by exactly those
records' projections. -/
theorem connect_replay_exact (e : String) (s : Store) :
    (∀ r : NotifRecord,
      r ∈ pendingFor e s ↔ (r ∈ s ∧ r.userEmail = e ∧ r.opened = false)) ∧
    List.Sorted recNewer (pendingFor e s) ∧
    (∀ (ch : Nat) (cs : Clients),
      (sseConnect e ch cs s).2
        = SseEvent.connected ::
            (pendingFor e s).map (fun r => SseEvent.notif (projPush r))) :=
  ⟨mem_pendingFor e s, List.sorted_insertionSort recNewer _, fun _ _ => rfl⟩

/-- C5 witness: on a concrete two-user store with one opened record, the replay
for `a@x` is exactly its unopened records, newest first. -/
theorem connect_replay_exact_witness :
    (recW1 ∈ pendingFor "a@x" storeW ↔
      (recW1 ∈ storeW ∧ recW1.userEmail = "a@x" ∧ recW1.opened = false)) ∧
    List.Sorted recNewer (pendingFor "a@x" storeW) ∧
    ((sseConnect "a@x" 5 [] storeW).2
      = SseEvent.connected ::
          (pendingFor "a@x" storeW).map (fun r => SseEvent.notif (projPush r))) :=
  ⟨(connect_replay_exact "a@x" storeW).1 recW1,
   (connect_replay_exact "a@x" storeW).2.1,
   (connect_replay_exact "a@x" storeW).2.2 5 []⟩

/-- C4 counterexample: register channel 1 for `a@x`, register newer channel 2
for the same identity, then run the close handler of the stale connection 1:
the registry no longer maps `a@x` to channel 2, even though the claim says the
newer channel must survive a stale disconnect. -/
theorem stale_close_removes_newer_channel :
    lookupClient (setClient "a@x" 2 (setClient "a@x" 1 [])) "a@x" = some 2 ∧
    lookupClient (closeClient "a@x" (setClient "a@x" 2 (setClient "a@x" 1 [])))
        "a@x" = none := by
  decide

/-- C4 amended: the SSE close handler removes the identity's registry entry
unconditionally — it never compares the closing channel with the stored one —
so after any close for identity `e` the registry has no channel for `e`, in
particular a stale disconnect of an older channel also removes a newer one. -/
theorem close_unregisters_unconditionally (cs : Clients) (e : String) :
    lookupClient (closeClient e cs) e = none ∧
    (∀ ch1 ch2 : Nat,
      lookupClient (closeClient e (setClient e ch2 (setClient e ch1 cs))) e
        = none) :=
  ⟨lookupClient_closeClient cs e, fun _ _ => lookupClient_closeClient _ e⟩

/-- C1: a dispatch batch that passes validation yields an `ok` response in
which every target contributed exactly one outcome entry:
`success.length + failed.length = total = targets.length`. -/
theorem dispatch_outcome_partition (b : Batch) (cs : Clients) (now : Nat)
    (s : Store) (ts : List Target) (hts : b.targetUsers = some ts)
    (hne : ts ≠ []) (hti : strTruthy b.title = true)
    (hco : strTruthy b.content = true) :
    ∃ res, (dispatch b cs now s).resp = .ok res ∧
      res.success.length + res.failed.length = ts.length ∧
      res.total = ts.length := by
  unfold dispatch
  rw [hts]
  have hne' : ts.isEmpty = false := by simpa [List.isEmpty_iff] using hne
  simp only [hne', Bool.false_eq_true, if_false, hti, hco, Bool.not_true,
    Bool.or_self]
  exact ⟨_, rfl, by simpa using runTargets_counts b cs now ts ⟨s, [], [], []⟩, rfl⟩

/-- C1 witness at a concrete two-target batch (one deliverable target, one with
a missing e-mail): 1 success + 1 failure = total = 2. -/
theorem dispatch_outcome_partition_witness :
    ∃ res, (dispatch batchTwoTargets [] 0 []).resp = .ok res ∧
      res.success.length + res.failed.length = 2 ∧ res.total = 2 :=
  dispatch_outcome_partition batchTwoTargets [] 0 []
    [⟨some "a@x", none, none⟩, ⟨none, none, none⟩] rfl (by decide) (by decide)
    (by decide)

/-- C7: a batch with an absent or empty target list, or a missing title or
content, is rejected with a validation error, the store is untouched and no
channel push happens. -/
theorem dispatch_validation_rejects (b : Batch) (cs : Clients) (now : Nat)
    (s : Store)
    (h : b.targetUsers = none ∨ b.targetUsers = some [] ∨ b.title = none ∨
      b.content = none) :
    (∃ msg, (dispatch b cs now s).resp = .invalid msg) ∧
    (dispatch b cs now s).store = s ∧ (dispatch b cs now s).pushes = [] := by
  unfold dispatch
  rcases h with h | h | h | h
  · rw [h]; exact ⟨⟨_, rfl⟩, rfl, rfl⟩
  · rw [h]; exact ⟨⟨_, rfl⟩, rfl, rfl⟩
  · cases hts : b.targetUsers with
    | none => exact ⟨⟨_, rfl⟩, rfl, rfl⟩
    | some ts =>
      by_cases hne : ts.isEmpty
      · simp only [hne, if_true]
        exact ⟨⟨_, rfl⟩, by trivial, by trivial⟩
      · have : strTruthy b.title = false := by rw [h]; rfl
        simp only [hne, Bool.false_eq_true, if_false, this, Bool.not_false,
          Bool.true_or, if_true]
        exact ⟨⟨_, rfl⟩, by trivial, by trivial⟩
  · cases hts : b.targetUsers with
    | none => exact ⟨⟨_, rfl⟩, rfl, rfl⟩
    | some ts =>
      by_cases hne : ts.isEmpty
      · simp only [hne, if_true]
        exact ⟨⟨_, rfl⟩, by trivial, by trivial⟩
      · have : strTruthy b.content = false := by rw [h]; rfl
        simp only [hne, Bool.false_eq_true, if_false, this, Bool.not_false,
          Bool.or_true, if_true]
        exact ⟨⟨_, rfl⟩, by trivial, by trivial⟩

/-- C7 witness: the empty-target-list batch is rejected with no side effects,
starting from a nonempty store. -/
theorem dispatch_validation_rejects_witness :
    (∃ msg, (dispatch batchEmptyTargets [] 0 [recW1]).resp = .invalid msg) ∧
    (dispatch batchEmptyTargets [] 0 [recW1]).store = [recW1] ∧
    (dispatch batchEmptyTargets [] 0 [recW1]).pushes = [] :=
  dispatch_validation_rejects batchEmptyTargets [] 0 [recW1]
    (Or.inr (Or.inl rfl))

lemma mkRecord_severity (b : Batch) (t : Target) (email : String) (now : Nat) :
    (mkRecord b t email now).severity = severitySpec b.priority := by
  simp [mkRecord, severitySpec]

lemma dispatch_store_new (b : Batch) (cs : Clients) (now : Nat) (s : Store) :
    ∀ r ∈ (dispatch b cs now s).store, r ∉ s →
      ∃ t, strTruthy t.email = true ∧ r = mkRecord b t (t.email.getD "") now := by
  intro r hr hnotin
  unfold dispatch at hr
  split at hr
  · exact absurd hr hnotin
  · split at hr
    · exact absurd hr hnotin
    · split at hr
      · exact absurd hr hnotin
      · next ts _ _ _ =>
        obtain ⟨new, hnew, hall⟩ := runTargets_store b cs now ts ⟨s, [], [], []⟩
        dsimp only at hr
        rw [hnew] at hr
        rcases List.mem_append.1 hr with h | h
        · exact absurd h hnotin
        · obtain ⟨t, _, he, hrt⟩ := hall r h
          exact ⟨t, he, hrt⟩

/-- C2 counterexample: a batch that omits `priority` produces a record whose
stored priority is `medium` but whose severity is `info`, not the `warning`
the claimed mapping requires for priority `medium`. -/
theorem no_priority_gives_info_severity :
    ((dispatch batchNoPriority [] 0 []).store.map fun r => (r.priority, r.severity))
        = [("medium", "info")] ∧
    ¬ ((dispatch batchNoPriority [] 0 []).store.map fun r => (r.priority, r.severity))
        = [("medium", "warning")] := by
  decide

/-- C2 amended: the stored priority defaults to `medium` when the batch omits
`priority`, but severity is derived from the raw request priority, not the
defaulted one: `high → error`, `medium → warning`, and anything else —
including an absent priority — yields `info`; so a batch with no priority field
yields a record with priority `medium` and severity `info`. -/
theorem dispatch_severity_from_raw_priority (b : Batch) (cs : Clients)
    (now : Nat) (s : Store) :
    (∀ r ∈ (dispatch b cs now s).store, r ∉ s →
      r.priority = strDefault b.priority "medium" ∧
      r.severity = severitySpec b.priority) ∧
    severitySpec (some "high") = "error" ∧
    severitySpec (some "medium") = "warning" ∧
    severitySpec (some "low") = "info" ∧
    severitySpec none = "info" ∧
    strDefault none "medium" = "medium" := by
  refine ⟨?_, rfl, rfl, rfl, rfl, rfl⟩
  intro r hr hnotin
  obtain ⟨t, _, hrt⟩ := dispatch_store_new b cs now s r hr hnotin
  subst hrt
  exact ⟨rfl, mkRecord_severity b t _ now⟩

/-- C2 witness: the record that the no-priority batch persists carries the
defaulted priority and the raw-priority-derived severity. -/
theorem dispatch_severity_from_raw_priority_witness :
    (mkRecord batchNoPriority ⟨some "a@x", none, none⟩ "a@x" 0).priority
        = strDefault batchNoPriority.priority "medium" ∧
    (mkRecord batchNoPriority ⟨some "a@x", none, none⟩ "a@x" 0).severity
        = severitySpec batchNoPriority.priority :=
  (dispatch_severity_from_raw_priority batchNoPriority [] 0 []).1
    (mkRecord batchNoPriority ⟨some "a@x", none, none⟩ "a@x" 0)
    (by decide) (by decide)

lemma countP_notificationId_le_one {l : Store}
    (h : (l.map fun r => r.notificationId).Nodup) (x : String) :
    l.countP (fun r => r.notificationId == x) ≤ 1 := by
  have h1 := List.nodup_iff_count_le_one.1 h x
  rw [List.count_eq_countP, List.countP_map] at h1
  exact h1

/-- C6 counterexample: two targets of one batch share the same
`(sourceNotificationId, identity)` pair — identity `a@x` — yet carry distinct
`userId`s, so their derived record ids differ and BOTH are persisted: two
records for the pair, not at most one. -/
theorem same_identity_two_userIds_persists_twice :
    ((dispatch batchSameIdentityTwoUserIds [] 0 []).store.countP
        (fun r => r.sourceNotificationId == "n1" && r.userEmail == "a@x")) = 2 := by
  decide

/-- C6 amended: the derived record id is deterministic in
`(sourceNotificationId, recipientKey)` where `recipientKey` is the target's
`userId` when present and nonzero and otherwise its e-mail — not in
`(sourceNotificationId, identity)` — and the store's uniqueness constraint
keeps at most one record per derived id: dispatch preserves distinctness of
stored record ids, so at most one record per `(sourceNotificationId,
recipientKey)` pair is ever persisted. -/
theorem dispatch_recordId_at_most_once (b : Batch) (cs : Clients) (now : Nat)
    (s : Store) (h : ((s.map fun r => r.notificationId).Nodup)) :
    (((dispatch b cs now s).store.map fun r => r.notificationId).Nodup) ∧
    (∀ x : String, ((dispatch b cs now s).store.countP
        (fun r => r.notificationId == x)) ≤ 1) ∧
    (∀ r ∈ (dispatch b cs now s).store, r ∉ s →
      r.notificationId
        = b.notificationId ++ "-" ++ recipientKey r.userId r.userEmail) := by
  have hnd : (((dispatch b cs now s).store.map fun r => r.notificationId).Nodup) := by
    unfold dispatch
    split
    · exact h
    · split
      · exact h
      · split
        · exact h
        · next ts _ _ _ =>
          exact runTargets_nodup b cs now ts ⟨s, [], [], []⟩ h
  refine ⟨hnd, fun x => countP_notificationId_le_one hnd x, ?_⟩
  intro r hr hnotin
  obtain ⟨t, _, hrt⟩ := dispatch_store_new b cs now s r hr hnotin
  subst hrt
  rfl

/-- C6 witness: dispatching a valid batch into an empty store keeps record ids
distinct and stores its record exactly once. -/
theorem dispatch_recordId_at_most_once_witness :
    (((dispatch batchNoPriority [] 0 []).store.map fun r => r.notificationId).Nodup) ∧
    (∀ x : String, ((dispatch batchNoPriority [] 0 []).store.countP
        (fun r => r.notificationId == x)) ≤ 1) ∧
    (∀ r ∈ (dispatch batchNoPriority [] 0 []).store, r ∉ ([] : Store) →
      r.notificationId
        = batchNoPriority.notificationId ++ "-"
            ++ recipientKey r.userId r.userEmail) :=
  dispatch_recordId_at_most_once batchNoPriority [] 0 [] (by decide)

lemma markOpened_store_mem (t : Nat) (cb : Bool) (eo io : Option String)
    (s : Store) (r : NotifRecord)
    (hr : r ∈ (markOpened t cb eo io s).store) :
    r ∈ s ∨ ∃ q ∈ s, r = markRec t q := by
  unfold markOpened at hr
  dsimp only at hr
  split at hr
  · exact Or.inl hr
  · split at hr
    · exact Or.inl hr
    · split at hr
      · exact Or.inl hr
      · split at hr
        · exact Or.inl hr
        · exact mem_updateFirst hr

/-- C9: `read` and `opened` stay equal on every record the core creates or
mutates — dispatch creates records with both `false`, mark-opened sets both
`true` together — and therefore the list endpoint's `unreadCount` (records
with `read = false`) equals the count of unopened records. -/
theorem read_opened_coupled (b : Batch) (cs : Clients) (now : Nat) (s : Store)
    (t : Nat) (cb : Bool) (eo io : Option String) (em : String)
    (hinv : ∀ r ∈ s, r.read = r.opened) :
    (∀ r ∈ (dispatch b cs now s).store, r.read = r.opened) ∧
    (∀ r ∈ (markOpened t cb eo io s).store, r.read = r.opened) ∧
    ((listNotifications em s).unreadCount
      = ((listNotifications em s).notifications.filter
          (fun n => !n.opened)).length) := by
  refine ⟨?_, ?_, ?_⟩
  · intro r hr
    by_cases hs : r ∈ s
    · exact hinv r hs
    · obtain ⟨tg, _, hrt⟩ := dispatch_store_new b cs now s r hr hs
      subst hrt
      rfl
  · intro r hr
    rcases markOpened_store_mem t cb eo io s r hr with hs | ⟨q, _, hq⟩
    · exact hinv r hs
    · subst hq
      rfl
  · show (((allFor em s).map projFull).filter (fun n => !n.read)).length = _
    have hco : ∀ n ∈ (allFor em s).map projFull, (!n.read) = (!n.opened) := by
      intro n hn
      obtain ⟨r, hr, hrn⟩ := List.mem_map.1 hn
      have hrs : r ∈ s := by
        have hmem := (List.perm_insertionSort recNewer
          (s.filter (fun q => q.userEmail == em))).mem_iff.1 hr
        exact (List.mem_filter.1 hmem).1
      subst hrn
      show (!r.read) = (!r.opened)
      rw [hinv r hrs]
    rw [List.filter_congr hco]
    rfl

/-- C9 witness: starting from a concrete store whose records all satisfy
`read = opened`, the dispatched store, the mark-opened store and the list
endpoint's counts keep the coupling. -/
theorem read_opened_coupled_witness :
    (∀ r ∈ (dispatch batchNoPriority [] 0 storeW).store, r.read = r.opened) ∧
    (∀ r ∈ (markOpened 7 true (some "a@x") (some "n1-a@x") storeW).store,
      r.read = r.opened) ∧
    ((listNotifications "a@x" storeW).unreadCount
      = ((listNotifications "a@x" storeW).notifications.filter
          (fun n => !n.opened)).length) :=
  read_opened_coupled batchNoPriority [] 0 storeW 7 true (some "a@x")
    (some "n1-a@x") "a@x" (by decide)

lemma str_append_ne (s a b : String) (h : a ≠ b) : s ++ a ≠ s ++ b := by
  intro he
  apply h
  have hd := congrArg String.data he
  simp only [String.data_append] at hd
  exact String.ext (List.append_cancel_left hd)

lemma processTarget_ok_store (b : Batch) (cs : Clients) (now : Nat)
    (st : DState) (t : Target) (he : strTruthy t.email = true)
    (hcf : createFails st.store (mkRecord b t (t.email.getD "") now) = false) :
    (processTarget b cs now st t).store
      = st.store ++ [mkRecord b t (t.email.getD "") now] := by
  unfold processTarget
  dsimp only
  rw [if_neg (by simp [he]), if_neg (by simp [hcf])]
  split <;> rfl

/-- C10 counterexample: a target whose `userId` is present but `0` derives its
record id from the e-mail, because `userId || email` in JavaScript treats `0`
as falsy — so the id is `n1-a@x`, not `n1-0`, although `userId` is present. -/
theorem zero_userId_falls_back_to_email :
    ((dispatch batchZeroUserId [] 0 []).store.map fun r => r.notificationId)
        = ["n1-a@x"] ∧
    ¬ ((dispatch batchZeroUserId [] 0 []).store.map fun r => r.notificationId)
        = ["n1-0"] := by
  decide

/-- C10 amended: the derived record id uses the target's `userId` when it is
present AND nonzero (JS falsiness of `0`), and falls back to the e-mail when
`userId` is absent or zero; two targets with the same `sourceNotificationId`
and the same nonzero `userId` collide on one record id regardless of their
e-mails; and the same `(sourceNotificationId, email)` submitted once with a
nonzero `userId` (whose decimal string differs from the e-mail) and once
without produces two distinct ids and two persisted records. -/
theorem recordId_userId_truthy_fallback (b : Batch) (now : Nat) (e : String)
    (u : Nat) (nm1 nm2 : Option String) (he : e ≠ "") (hu : u ≠ 0)
    (hne : toString u ≠ e) (hp : b.priority = none)
    (ht : b.targetUsers = some [⟨some e, some u, nm1⟩, ⟨some e, none, nm2⟩])
    (hti : strTruthy b.title = true) (hco : strTruthy b.content = true) :
    recipientKey none e = e ∧
    recipientKey (some 0) e = e ∧
    recipientKey (some u) e = toString u ∧
    (∀ e2 : String,
      (mkRecord b ⟨some e2, some u, nm1⟩ e2 now).notificationId
        = (mkRecord b ⟨some e, some u, nm1⟩ e now).notificationId) ∧
    ((mkRecord b ⟨some e, some u, nm1⟩ e now).notificationId
        ≠ (mkRecord b ⟨some e, none, nm2⟩ e now).notificationId) ∧
    (∀ (cs : Clients) (st : DState) (t : Target),
      strTruthy t.email = true →
      createFails st.store (mkRecord b t (t.email.getD "") now) = true →
      (processTarget b cs now st t).store = st.store ∧
      (processTarget b cs now st t).failed
        = st.failed ++ [⟨t.email, t.userId, t.name,
            "Failed to store/send notification"⟩]) ∧
    (dispatch b [] now []).store
        = [mkRecord b ⟨some e, some u, nm1⟩ e now,
           mkRecord b ⟨some e, none, nm2⟩ e now] := by
  have hkey : recipientKey (some u) e = toString u := by
    simp [recipientKey, hu]
  have hid1 : (mkRecord b ⟨some e, some u, nm1⟩ e now).notificationId
      = b.notificationId ++ "-" ++ toString u := by
    show b.notificationId ++ "-" ++ recipientKey (some u) e = _
    rw [hkey]
  have hid2 : (mkRecord b ⟨some e, none, nm2⟩ e now).notificationId
      = b.notificationId ++ "-" ++ e := rfl
  have hneid : (mkRecord b ⟨some e, some u, nm1⟩ e now).notificationId
      ≠ (mkRecord b ⟨some e, none, nm2⟩ e now).notificationId := by
    rw [hid1, hid2]
    exact str_append_ne (b.notificationId ++ "-") _ _ hne
  have hmedium : strDefault b.priority "medium" = "medium" := by rw [hp]; rfl
  have hcf1 : createFails []
      (mkRecord b ⟨some e, some u, nm1⟩ e now) = false := by
    simp [createFails, mkRecord, hmedium]
  have hcf2 : createFails [mkRecord b ⟨some e, some u, nm1⟩ e now]
      (mkRecord b ⟨some e, none, nm2⟩ e now) = false := by
    unfold createFails
    rw [Bool.or_eq_false_iff]
    refine ⟨by simp [hneid], ?_⟩
    show (!(strDefault b.priority "medium" == "high"
        || strDefault b.priority "medium" == "medium"
        || strDefault b.priority "medium" == "low")) = false
    rw [hmedium]
    rfl
  have hes := strTruthy_some_of_ne he
  have hs1 : (processTarget b [] now ⟨[], [], [], []⟩
      ⟨some e, some u, nm1⟩).store = [mkRecord b ⟨some e, some u, nm1⟩ e now] := by
    rw [processTarget_ok_store b [] now ⟨[], [], [], []⟩ ⟨some e, some u, nm1⟩
      hes hcf1]
    rfl
  have hcf2' : createFails (processTarget b [] now ⟨[], [], [], []⟩
      ⟨some e, some u, nm1⟩).store (mkRecord b ⟨some e, none, nm2⟩ e now) = false := by
    rw [hs1]; exact hcf2
  have hs2 : (runTargets b [] now ⟨[], [], [], []⟩
      [⟨some e, some u, nm1⟩, ⟨some e, none, nm2⟩]).store
      = [mkRecord b ⟨some e, some u, nm1⟩ e now,
         mkRecord b ⟨some e, none, nm2⟩ e now] := by
    rw [runTargets_cons, runTargets_cons]
    show (processTarget b [] now (processTarget b [] now ⟨[], [], [], []⟩
      ⟨some e, some u, nm1⟩) ⟨some e, none, nm2⟩).store = _
    rw [processTarget_ok_store b [] now _ ⟨some e, none, nm2⟩ hes hcf2', hs1]
    rfl
  refine ⟨rfl, rfl, hkey, ?_, hneid, ?_, ?_⟩
  · intro e2
    show b.notificationId ++ "-" ++ recipientKey (some u) e2
      = b.notificationId ++ "-" ++ recipientKey (some u) e
    rw [hkey]
    simp [recipientKey, hu]
  · intro cs st t h1 h2
    unfold processTarget
    dsimp only
    rw [if_neg (by simp [h1]), if_pos h2]
    exact ⟨rfl, rfl⟩
  · unfold dispatch
    rw [ht]
    dsimp only
    rw [if_neg (by simp), if_neg (by simp [hti, hco])]
    exact hs2

/-- C10 witness: source id `n1`, identity `a@x`, nonzero userId `7` — the key
facts and the two persisted records at a concrete batch. -/
theorem recordId_userId_truthy_fallback_witness :
    recipientKey none "a@x" = "a@x" ∧
    recipientKey (some 0) "a@x" = "a@x" ∧
    recipientKey (some 7) "a@x" = toString 7 ∧
    (∀ e2 : String,
      (mkRecord batchMixedUserId ⟨some e2, some 7, none⟩ e2 0).notificationId
        = (mkRecord batchMixedUserId ⟨some "a@x", some 7, none⟩ "a@x" 0).notificationId) ∧
    ((mkRecord batchMixedUserId ⟨some "a@x", some 7, none⟩ "a@x" 0).notificationId
        ≠ (mkRecord batchMixedUserId ⟨some "a@x", none, none⟩ "a@x" 0).notificationId) ∧
    (∀ (cs : Clients) (st : DState) (t : Target),
      strTruthy t.email = true →
      createFails st.store (mkRecord batchMixedUserId t (t.email.getD "") 0) = true →
      (processTarget batchMixedUserId cs 0 st t).store = st.store ∧
      (processTarget batchMixedUserId cs 0 st t).failed
        = st.failed ++ [⟨t.email, t.userId, t.name,
            "Failed to store/send notification"⟩]) ∧
    (dispatch batchMixedUserId [] 0 []).store
        = [mkRecord batchMixedUserId ⟨some "a@x", some 7, none⟩ "a@x" 0,
           mkRecord batchMixedUserId ⟨some "a@x", none, none⟩ "a@x" 0] :=
  recordId_userId_truthy_fallback batchMixedUserId 0 "a@x" 7 none none
    (by decide) (by decide) (by decide) rfl rfl (by decide) (by decide)

/-- C3 witness: marking the concrete unopened record `n1-a@x` twice — second
call mutates nothing and fires no callback; `openedAt` keeps the first call's
timestamp. -/
theorem mark_opened_idempotent_witness :
    ((markOpened 9 false (some "a@x") (some "n1-a@x")
        (markOpened 5 true (some "a@x") (some "n1-a@x") storeW).store).store
      = (markOpened 5 true (some "a@x") (some "n1-a@x") storeW).store) ∧
    ((markOpened 9 false (some "a@x") (some "n1-a@x")
        (markOpened 5 true (some "a@x") (some "n1-a@x") storeW).store).callbacks
      = []) ∧
    ((markOpened 5 true (some "a@x") (some "n1-a@x") storeW).store.find?
        (recMatch "n1-a@x" "a@x") = some (markRec 5 recW1)) ∧
    (markRec 5 recW1).openedAt = some 5 :=
  ⟨(mark_opened_idempotent storeW "a@x" "n1-a@x" 5 9 true false (by decide)
      (by decide)).1,
   (mark_opened_idempotent storeW "a@x" "n1-a@x" 5 9 true false (by decide)
      (by decide)).2.1,
   ((mark_opened_idempotent storeW "a@x" "n1-a@x" 5 9 true false (by decide)
      (by decide)).2.2.2 recW1 (by decide) (by decide)).1,
   ((mark_opened_idempotent storeW "a@x" "n1-a@x" 5 9 true false (by decide)
      (by decide)).2.2.2 recW1 (by decide) (by decide)).2.2⟩

/-- C8 witness: the first open transition of the tracked record `n1-a@x` makes
exactly one callback attempt and responds with the transitioned projection. -/
theorem mark_opened_callback_swallowed_witness :
    (markOpened 5 true (some "a@x") (some "n1-a@x") storeW).callbacks.length = 1 ∧
    (markOpened 5 true (some "a@x") (some "n1-a@x") storeW).resp
        = .ok (projFull (markRec 5 recW1)) ∧
    (markOpened 5 true (some "a@x") (some "n1-a@x") storeW).store
        = updateFirst (recMatch "n1-a@x" "a@x") (markRec 5) storeW ∧
    (projFull (markRec 5 recW1)).read = true ∧
    (projFull (markRec 5 recW1)).opened = true ∧
    (projFull (markRec 5 recW1)).openedAt = some 5 :=
  (mark_opened_callback_swallowed storeW (some "a@x") (some "n1-a@x") 5 true
      false).2.2 "a@x" "n1-a@x" recW1 true rfl rfl (by decide) (by decide)
    (by decide) (by decide) (by decide) (by decide)

/-- C4 witness for the amended statement: at a concrete registry, any close for
`a@x` leaves no channel for `a@x`. -/
theorem close_unregisters_unconditionally_witness :
    lookupClient (closeClient "a@x" [("a@x", 2), ("b@x", 3)]) "a@x" = none ∧
    (∀ ch1 ch2 : Nat,
      lookupClient (closeClient "a@x" (setClient "a@x" ch2 (setClient "a@x" ch1
        [("a@x", 2), ("b@x", 3)]))) "a@x" = none) :=
  close_unregisters_unconditionally [("a@x", 2), ("b@x", 3)] "a@x"

end ServiceHub
